import Mathlib

/-!
Shallow embedding of `scrape.py` (the Grilld store scraper).

The HTTP transport, the HTML parser (BeautifulSoup) and `json.loads` are
external library collaborators; a fetched page is therefore modelled as the
already-queried structure the code observes through those libraries: the
ld+json script tag (absent, present with `.string = None`, present with
unparseable text, or present with a parsed JSON document), the texts of the
`.restaurant-chips .chip-text` elements, and the `__NUXT_DATA__` script tag
in the same three-way form.  Everything the program itself does with those
observations is translated line by line from the source.

Python exceptions are modelled with `Except PyErr`: a `.error` value is an
exception escaping `scrape_store_page` (re-raised by `future.result()` in
`main`); caught exceptions are translated to the `except` branch the source
takes.  String case-mapping and digit tests are modelled at ASCII scope,
which covers the alphabet the program and the claims exercise.
-/

/-- Exception classes that `scrape.py` can raise or catch. -/
inductive PyErr where
  | attributeError
  | typeError
  | valueError
  | keyError
  | indexError
deriving DecidableEq, Repr

/-- Python/JSON values as produced by `json.loads`: None, bool, int, float
(modelled as a rational — adequate because the program never performs float
arithmetic, only truthiness and isinstance tests), str, list, dict.  A dict
is its key/value pairs in insertion order; `json.loads` keeps the last
duplicate key, so parsed dicts have pairwise-distinct keys and the first
`lookup` match is the dict entry. -/
inductive Json where
  | null
  | bool (b : Bool)
  | int (n : Int)
  | float (q : Rat)
  | str (s : String)
  | arr (xs : List Json)
  | obj (fields : List (String × Json))

/-- Outcome of reading a script tag and handing `tag.string` to
`json.loads`: `noString` is a tag whose `.string` is `None` (empty tag or
several children — `json.loads(None)` raises `TypeError`), `invalid` is
text that raises `json.JSONDecodeError`, `parsed` is a successfully parsed
document. -/
inductive ScriptContent where
  | noString
  | invalid
  | parsed (j : Json)

/-- A fetched store detail page, as observed through BeautifulSoup:
`ldJsonTag` is `soup.find` of the `application/ld+json` script (line 55),
`chips` the texts selected by `.restaurant-chips .chip-text` (line 101),
`nuxtTag` the script with id `__NUXT_DATA__` (line 104). -/
structure Page where
  ldJsonTag : Option ScriptContent
  chips : List String
  nuxtTag : Option ScriptContent

/-- Result of `requests.get` on a detail page: a `requests.exceptions.RequestException`
(connection failure, timeout, or non-2xx via `raise_for_status`, lines 46-50)
or the page body. -/
inductive FetchResult where
  | transportError
  | page (pg : Page)

/-- Python truthiness of a JSON value (`if part`, `x or y`). -/
def pyTruthy : Json → Bool
  | .null => false
  | .bool b => b
  | .int n => n ≠ 0
  | .float q => q ≠ 0
  | .str s => s ≠ ""
  | .arr xs => ¬ xs.isEmpty
  | .obj fs => ¬ fs.isEmpty

/-- Python iteration (`for x in v`): lists yield their elements, strings
their one-character strings, dicts their keys; other values raise
`TypeError` at the `for` statement. -/
def pyIter : Json → Except PyErr (List Json)
  | .arr xs => .ok xs
  | .str s => .ok (s.toList.map (fun c => .str (String.singleton c)))
  | .obj fs => .ok (fs.map (fun p => .str p.1))
  | _ => .error .typeError

/-- Lexicographic code-point comparison of character lists, the order Python
uses to compare strings. -/
def charsLe : List Char → List Char → Bool
  | [], _ => true
  | _ :: _, [] => false
  | a :: as, b :: bs =>
    a.toNat < b.toNat || (a.toNat = b.toNat && charsLe as bs)

/-- Python string comparison `a <= b` (code-point lexicographic). -/
def strLe (a b : String) : Bool :=
  charsLe a.toList b.toList

/-- Split of a character list at every occurrence of `sep`. -/
def splitOnChar (sep : Char) : List Char → List (List Char)
  | [] => [[]]
  | c :: cs =>
    match splitOnChar sep cs with
    | [] => [[]]
    | g :: gs => if c = sep then [] :: g :: gs else (c :: g) :: gs

/-- ASCII whitespace, the white space `str.strip` removes on the strings
this program meets. -/
def isSpace (c : Char) : Bool :=
  c = ' ' || c = '\t' || c = '\n' || c = '\r'

/-- Python `s.strip()`: drop whitespace from both ends. -/
def pyStrip (s : String) : String :=
  ⟨((s.toList.dropWhile isSpace).reverse.dropWhile isSpace).reverse⟩

/-- ASCII lowercasing of one character. -/
def lowerChar (c : Char) : Char :=
  if 'A' ≤ c && c ≤ 'Z' then Char.ofNat (c.toNat + 32) else c

/-- Python `s.lower()` at ASCII scope. -/
def pyLower (s : String) : String :=
  ⟨s.toList.map lowerChar⟩

/-- Test that `p` is a leading piece of `s`. -/
def strStarts (s p : String) : Bool :=
  p.toList.isPrefixOf s.toList

/-- Decimal value of a digit list. -/
def decVal (cs : List Char) : Nat :=
  cs.foldl (fun a c => a * 10 + (c.toNat - 48)) 0

/-- Validity of the hour token of `strptime` format `%H`: the library regex
is one digit, or two digits with value at most 23. -/
def validH (cs : List Char) : Bool :=
  cs.all Char.isDigit && (cs.length = 1 || (cs.length = 2 && decVal cs ≤ 23))

/-- Validity of the minute token of `strptime` format `%M`: one digit, or
two digits with value at most 59. -/
def validM (cs : List Char) : Bool :=
  cs.all Char.isDigit && (cs.length = 1 || (cs.length = 2 && decVal cs ≤ 59))

/-- Model of `datetime.strptime(s, "%H:%M")` (lines 81-82): succeeds exactly
when `s` is an hour token, a colon, and a minute token with nothing left
over; returns the parsed (hour, minute).  Failure is `ValueError` in
Python, caught by the loop. -/
def parseHM (s : String) : Option (Nat × Nat) :=
  match splitOnChar ':' s.toList with
  | [h, m] => if validH h && validM m then some (decVal h, decVal m) else none
  | _ => none

/-- Model of `dt.strftime("%-I%p")` for a time on hour `h` (lines 83-84):
12-hour clock hour without leading zero followed by AM or PM; the two
`.replace` calls in the source are identity rewrites. -/
def fmt12 (h : Nat) : String :=
  (toString (if h % 12 = 0 then 12 else h % 12)) ++ (if h < 12 then "AM" else "PM")

/-- One entry of the normalized `opening_hours` list (line 86): the raw
`dayOfWeek` value is stored unchanged under `name`. -/
structure HoursEntry where
  name : Json
  description : String
  isClosed : Bool

/-- Body of the loop over `openingHoursSpecification` entries (lines 78-88):
`spec.get("dayOfWeek")` raises `AttributeError` on a non-dict (not caught by
the `except (ValueError, TypeError, KeyError)` clause); a missing `opens` or
`closes` key (KeyError), a non-string time (TypeError from strptime) or a
string not matching `%H:%M` (ValueError) is caught and the entry skipped;
otherwise the normalized entry is produced with `isClosed` False. -/
def processHoursSpec (spec : Json) : Except PyErr (Option HoursEntry) :=
  match spec with
  | .obj sf =>
    match sf.lookup "opens" with
    | none => .ok none
    | some o =>
      match o with
      | .str os =>
        match parseHM os with
        | none => .ok none
        | some oh =>
          match sf.lookup "closes" with
          | none => .ok none
          | some c =>
            match c with
            | .str cs =>
              match parseHM cs with
              | none => .ok none
              | some ch =>
                .ok (some { name := (sf.lookup "dayOfWeek").getD .null,
                            description := fmt12 oh.1 ++ " - " ++ fmt12 ch.1,
                            isClosed := false })
            | _ => .ok none
      | _ => .ok none
  | _ => .error .attributeError

/-- The loop of lines 78-88 over the whole spec list, in order; an uncaught
exception from one iteration aborts the function. -/
def buildHours : List Json → Except PyErr (List HoursEntry)
  | [] => .ok []
  | s :: ss =>
    match processHoursSpec s with
    | .error e => .error e
    | .ok none => buildHours ss
    | .ok (some e) =>
      match buildHours ss with
      | .error err => .error err
      | .ok hs => .ok (e :: hs)

/-- Canonical weekday order (line 77). -/
def day_order : List String :=
  ["Monday", "Tuesday", "Wednesday", "Thursday", "Friday", "Saturday", "Sunday"]

/-- Sort key of line 89: `day_order.index(x["name"]) if x["name"] in day_order
else 99`.  Only a string can compare equal to a member of `day_order`. -/
def dayIdx (e : HoursEntry) : Nat :=
  match e.name with
  | .str s => if s ∈ day_order then day_order.indexOf s else 99
  | _ => 99

instance : DecidableRel (fun a b : HoursEntry => dayIdx a ≤ dayIdx b) :=
  fun a b => inferInstanceAs (Decidable (dayIdx a ≤ dayIdx b))

/-- The stable sort of line 89 (Python `list.sort(key=...)`). -/
def sortHours (hs : List HoursEntry) : List HoursEntry :=
  hs.insertionSort (fun a b => dayIdx a ≤ dayIdx b)

/-- Address synthesis of lines 66-72: take `ld_data.get("address", {})`
(AttributeError if the value is present but not a dict), read the three
sub-fields, strip each truthy part (AttributeError if a truthy part is not a
string), drop falsy results with `filter(None, ...)`, and join with a comma
and space. -/
def buildAddress (fields : List (String × Json)) : Except PyErr String :=
  match (fields.lookup "address").getD (.obj []) with
  | .obj af =>
    let parts : List Json :=
      [(af.lookup "streetAddress").getD .null,
       (af.lookup "addressLocality").getD .null,
       (af.lookup "addressRegion").getD .null]
    match parts.mapM (fun p =>
      if pyTruthy p then
        match p with
        | .str s => Except.ok (some (pyStrip s))
        | _ => Except.error PyErr.attributeError
      else Except.ok none) with
    | .error e => .error e
    | .ok stripped =>
      .ok (String.intercalate ", " ((stripped.filterMap id).filter (fun s => s ≠ "")))
  | _ => .error .attributeError

/-- The record the scraper builds per page (lines 91-98); field types follow
what the source can actually store in each slot. -/
structure StoreRecord where
  name : Json
  address : String
  phone : Json
  opening_hours : List HoursEntry
  url : String
  description : Json
  services : List String
  latitude : Json
  longitude : Json

/-- Lines 65-101: address synthesis, the hours loop and sort, the record
dict of lines 91-98, and the chip-derived `services` overwrite of line 101
(the line 97 placeholder is dead in every successful run, so the overwrite
is folded into the construction). -/
def extractBase (url : String) (pg : Page) (fields : List (String × Json)) :
    Except PyErr StoreRecord :=
  match buildAddress fields with
  | .error e => .error e
  | .ok addr =>
    match pyIter ((fields.lookup "openingHoursSpecification").getD (.arr [])) with
    | .error e => .error e
    | .ok specs =>
      match buildHours specs with
      | .error e => .error e
      | .ok hs =>
        .ok { name := (fields.lookup "name").getD .null,
              address := addr,
              phone := (fields.lookup "telephone").getD .null,
              opening_hours := sortHours hs,
              url := url,
              description := .null,
              services := pg.chips.map pyStrip,
              latitude := .null,
              longitude := .null }

/-- The `dereference` helper of lines 108-111: an int (or bool, which is an
int in Python) in bounds indexes the array, anything else gives None. -/
def dereference (items : List Json) (ref : Json) : Json :=
  match ref with
  | .int n => if 0 ≤ n ∧ n.toNat < items.length then items.getD n.toNat .null else .null
  | .bool b => if (if b then 1 else 0) < items.length then items.getD (if b then 1 else 0) .null else .null
  | _ => .null

/-- Predicate of line 113: `isinstance(item, dict) and "state" in item`. -/
def isStateRef : Json → Bool
  | .obj fs => (fs.lookup "state").isSome
  | _ => false

/-- Lines 103-124: walk `__NUXT_DATA__` for latitude/longitude/description.
`json.loads(None)` (TypeError) and undecodable text (JSONDecodeError) are
caught by the `except` clause of line 123 and leave the record untouched, as
does every guard that fails; the one uncaught path is
`state_obj.get("restaurant", {}).get("restaurant")` when the inner value is
present but not a dict — `AttributeError`, absent from the `except` list.
Returns the three dereferenced values when the full path succeeds. -/
def nuxtExtract (pg : Page) : Except PyErr (Option (Json × Json × Json)) :=
  match pg.nuxtTag with
  | none => .ok none
  | some .noString => .ok none
  | some .invalid => .ok none
  | some (.parsed nd) =>
    match nd with
    | .arr items =>
      match items.find? isStateRef with
      | none => .ok none
      | some sro =>
        match sro with
        | .obj sfs =>
          match dereference items ((sfs.lookup "state").getD .null) with
          | .obj st =>
            match (st.lookup "restaurant").getD (.obj []) with
            | .obj mf =>
              match dereference items ((mf.lookup "restaurant").getD .null) with
              | .obj rf =>
                .ok (some (dereference items ((rf.lookup "latitude").getD .null),
                           dereference items ((rf.lookup "longitude").getD .null),
                           dereference items ((rf.lookup "description").getD .null)))
              | _ => .ok none
            | _ => .error .attributeError
          | _ => .ok none
        | _ => .ok none
    | .str _ => .ok none
    | .obj _ => .ok none
    | _ => .ok none

/-- Function `scrape_store_page` (lines 40-126).  A transport failure is
caught and yields None.  A missing ld+json tag yields None (line 58); a tag
whose `.string` is None makes `json.loads` raise `TypeError`, which the
`except json.JSONDecodeError` of line 61 does not catch; undecodable text
yields None (line 63).  A parsed document that is not a dict raises
`AttributeError` at the first `.get` (line 66).  Otherwise the record is
built and the NUXT enrichment of lines 103-124 fills
latitude/longitude/description when its whole path succeeds. -/
def scrape_store_page (url : String) (fetch : FetchResult) :
    Except PyErr (Option StoreRecord) :=
  match fetch with
  | .transportError => .ok none
  | .page pg =>
    match pg.ldJsonTag with
    | none => .ok none
    | some .noString => .error .typeError
    | some .invalid => .ok none
    | some (.parsed ld) =>
      match ld with
      | .obj fields =>
        match extractBase url pg fields with
        | .error e => .error e
        | .ok r =>
          match nuxtExtract pg with
          | .error e => .error e
          | .ok none => .ok (some r)
          | .ok (some g) =>
            .ok (some { r with latitude := g.1, longitude := g.2.1, description := g.2.2 })
      | _ => .error .attributeError

/-- Base address of the target site (line 10). -/
def BASE_URL : String := "https://grilld.com.au"

/-- Model of `urllib.parse.urljoin(base, href)` restricted to the shapes the
program meets: an absolute URL is kept, a scheme-relative target inherits
the https scheme, a root-relative path is appended to the authority-only
base, a bare relative path is resolved from the root of the base (whose
path is empty), and an empty target resolves to the base. -/
def urljoin (base href : String) : String :=
  if strStarts href "http://" || strStarts href "https://" then href
  else if strStarts href "//" then "https:" ++ href
  else if strStarts href "/" then base ++ href
  else if href = "" then base
  else base ++ "/" ++ href

/-- Listing endpoint (line 11). -/
def RESTAURANTS_LIST_URL : String := urljoin BASE_URL "/restaurants"

/-- Output path (line 12). -/
def OUTPUT_FILE : String := "stores.json"

/-- Worker-pool size (line 13). -/
def MAX_WORKERS : Nat := 10

/-- Occurrence of `needle` at some position of the character list. -/
def containsFrom (needle : List Char) : List Char → Bool
  | [] => needle.isEmpty
  | c :: cs => needle.isPrefixOf (c :: cs) || containsFrom needle cs

/-- Substring test, `needle in haystack` on Python strings. -/
def strContains (haystack needle : String) : Bool :=
  containsFrom needle.toList haystack.toList

/-- The listing page as observed through the selector
`.c-body-rich-text a[href]` (line 28): the `href` attribute values of the
selected anchors, in document order.  The selector requires the attribute
to be present, but its value may be empty. -/
structure ListingPage where
  anchors : List String

/-- Function `get_store_urls` (lines 15-38): `none` stands for a
`requests.exceptions.RequestException` on the listing fetch, which is
caught and yields `[]`.  Otherwise the truthy hrefs containing
`restaurants/` are resolved against the base URL, collected into a set, and
returned sorted (`sorted(list(urls))`), which is the duplicate-free sorted
sequence of the resolved URLs. -/
def get_store_urls (fetch : Option ListingPage) : List String :=
  match fetch with
  | none => []
  | some pg =>
    (((pg.anchors.filter (fun h => h ≠ "" && strContains h "restaurants/")).map
        (urljoin BASE_URL)).dedup).insertionSort (fun a b => strLe a b = true)

/-- The orchestrator loop of `main` (lines 139-154) run over the tasks in
completion order: each `(url, fetch)` pair is one submitted future;
`completed_count` is incremented for every finished task, `future.result()`
re-raises a task's uncaught exception into the loop (aborting the run), a
`None` result is counted but contributes no record, and a record is
appended in completion order.  Returns the completed count and the
collected records. -/
def orchestrate : List (String × FetchResult) → Except PyErr (Nat × List StoreRecord)
  | [] => .ok (0, [])
  | t :: ts =>
    match scrape_store_page t.1 t.2 with
    | .error e => .error e
    | .ok none =>
      match orchestrate ts with
      | .error e => .error e
      | .ok (n, rs) => .ok (n + 1, rs)
    | .ok (some r) =>
      match orchestrate ts with
      | .error e => .error e
      | .ok (n, rs) => .ok (n + 1, r :: rs)

/-- Sort key of line 157, `(x.get("name") or "").lower()`: a falsy name
(None, False, 0, 0.0, empty string/list/dict) is replaced by the empty
string; a truthy string is lowercased; `.lower()` on any other truthy value
raises `AttributeError`, which `main` does not catch. -/
def recKey (r : StoreRecord) : Except PyErr String :=
  match r.name with
  | .null => .ok ""
  | .bool b => if b then .error .attributeError else .ok ""
  | .int n => if n = 0 then .ok "" else .error .attributeError
  | .float q => if q = 0 then .ok "" else .error .attributeError
  | .str s => .ok (pyLower s)
  | .arr xs => if xs.isEmpty then .ok "" else .error .attributeError
  | .obj fs => if fs.isEmpty then .ok "" else .error .attributeError

/-- Total version of `recKey`, agreeing with it whenever it succeeds. -/
def recKeyD (r : StoreRecord) : String :=
  match recKey r with
  | .ok s => s
  | .error _ => ""

instance : DecidableRel (fun a b : StoreRecord => strLe (recKeyD a) (recKeyD b) = true) :=
  fun a b => inferInstanceAs (Decidable (strLe (recKeyD a) (recKeyD b) = true))

/-- The final sort of line 157, `all_stores_data.sort(key=...)`: Python
computes the key of every element first (the first failing key raises, and
`main` does not catch it), then stably sorts by the keys. -/
def sortRecords (rs : List StoreRecord) : Except PyErr (List StoreRecord) :=
  match rs.findSome? (fun r => match recKey r with | .error e => some e | .ok _ => none) with
  | some e => .error e
  | none => .ok (rs.insertionSort (fun a b => strLe (recKeyD a) (recKeyD b) = true))

/-- Lines 139-157 of `main`: drain the futures, then sort the collected
records in place.  The written JSON array is this sorted list. -/
def main_records (tasks : List (String × FetchResult)) : Except PyErr (List StoreRecord) :=
  match orchestrate tasks with
  | .error e => .error e
  | .ok (_, rs) => sortRecords rs

/-- Serialization of one hours entry as `json.dump` sees it (line 86 dict,
insertion order). -/
def hoursEntryToJson (e : HoursEntry) : Json :=
  .obj [("name", e.name), ("description", .str e.description),
        ("isClosed", .bool e.isClosed)]

/-- Serialization of one record as `json.dump` sees it: the dict of lines
91-97 in insertion order, with the values the record holds at write time. -/
def recordToJson (r : StoreRecord) : Json :=
  .obj [("name", r.name),
        ("address", .str r.address),
        ("phone", r.phone),
        ("opening_hours", .arr (r.opening_hours.map hoursEntryToJson)),
        ("url", .str r.url),
        ("description", r.description),
        ("services", .arr (r.services.map .str)),
        ("latitude", r.latitude),
        ("longitude", r.longitude)]

/-- Field access on a serialized object. -/
def jsonField (j : Json) (k : String) : Option Json :=
  match j with
  | .obj fs => fs.lookup k
  | _ => none

/-- Modelled from the spec: the one-shot diagnostic capture of section 4.4
is absent from `src/scrape.py` (lines 55-58 only log and return None), so it
is modelled from the specification text: when an extraction fails to locate
the expected data block, the raw body may be written to a debug location at
most once per run — a shared flag, guarded by a mutual-exclusion mechanism,
ensures only the first failing page is written.  The lock serializes the
check-and-set, so a run is modelled as a fold over the order in which tasks
reach the lock: `flag` is the shared one-shot flag, the input list marks
which page reports a missing data block, and the output marks which page
performs a debug write. -/
def debugWritesAux (flag : Bool) : List Bool → List Bool
  | [] => []
  | p :: ps =>
    if p then
      if flag then false :: debugWritesAux true ps
      else true :: debugWritesAux true ps
    else false :: debugWritesAux flag ps

/-- Modelled from the spec: a full run starts with the shared flag clear. -/
def debugWrites (pages : List Bool) : List Bool :=
  debugWritesAux false pages

/-- Unfolding of `charsLe` on two cons cells. -/
theorem charsLe_cons (a b : Char) (as bs : List Char) :
    charsLe (a :: as) (b :: bs) = true ↔
      (a.toNat < b.toNat ∨ (a.toNat = b.toNat ∧ charsLe as bs = true)) := by
  simp [charsLe]

/-- The code-point order is total. -/
theorem charsLe_total : ∀ a b : List Char, charsLe a b = true ∨ charsLe b a = true
  | [], _ => Or.inl rfl
  | _ :: _, [] => Or.inr rfl
  | a :: as, b :: bs => by
    rcases Nat.lt_trichotomy a.toNat b.toNat with h | h | h
    · exact Or.inl ((charsLe_cons a b as bs).mpr (Or.inl h))
    · rcases charsLe_total as bs with ih | ih
      · exact Or.inl ((charsLe_cons a b as bs).mpr (Or.inr ⟨h, ih⟩))
      · exact Or.inr ((charsLe_cons b a bs as).mpr (Or.inr ⟨h.symm, ih⟩))
    · exact Or.inr ((charsLe_cons b a bs as).mpr (Or.inl h))

/-- The code-point order is transitive. -/
theorem charsLe_trans : ∀ a b c : List Char,
    charsLe a b = true → charsLe b c = true → charsLe a c = true
  | [], _, _, _, _ => rfl
  | _ :: _, [], _, h, _ => by simp [charsLe] at h
  | _ :: _, _ :: _, [], _, h => by simp [charsLe] at h
  | a :: as, b :: bs, c :: cs, h1, h2 => by
    rw [charsLe_cons] at h1 h2 ⊢
    rcases h1 with h1 | ⟨e1, r1⟩
    · rcases h2 with h2 | ⟨e2, r2⟩
      · exact Or.inl (h1.trans h2)
      · exact Or.inl (by omega)
    · rcases h2 with h2 | ⟨e2, r2⟩
      · exact Or.inl (by omega)
      · exact Or.inr ⟨e1.trans e2, charsLe_trans as bs cs r1 r2⟩

instance : IsTotal String (fun a b => strLe a b = true) :=
  ⟨fun a b => charsLe_total a.toList b.toList⟩

instance : IsTrans String (fun a b => strLe a b = true) :=
  ⟨fun a b c => charsLe_trans a.toList b.toList c.toList⟩

instance : IsTotal StoreRecord (fun a b => strLe (recKeyD a) (recKeyD b) = true) :=
  ⟨fun a b => charsLe_total (recKeyD a).toList (recKeyD b).toList⟩

instance : IsTrans StoreRecord (fun a b => strLe (recKeyD a) (recKeyD b) = true) :=
  ⟨fun a b c => charsLe_trans (recKeyD a).toList (recKeyD b).toList (recKeyD c).toList⟩

/-- A produced hours entry always carries `isClosed` False. -/
theorem processHoursSpec_isClosed {s : Json} {e : HoursEntry}
    (h : processHoursSpec s = .ok (some e)) : e.isClosed = false := by
  unfold processHoursSpec at h
  repeat' split at h
  all_goals first
    | (simp only [Except.ok.injEq, Option.some.injEq] at h; exact h ▸ rfl)
    | exact absurd h (by simp)

/-- Every entry of a successfully built hours list has `isClosed` False. -/
theorem buildHours_isClosed : ∀ {ss : List Json} {hs : List HoursEntry},
    buildHours ss = .ok hs → ∀ e ∈ hs, e.isClosed = false := by
  intro ss
  induction ss with
  | nil =>
    intro hs h e he
    simp only [buildHours, Except.ok.injEq] at h
    subst h
    cases he
  | cons s ss ih =>
    intro hs h e he
    unfold buildHours at h
    split at h
    · cases h
    · exact ih h e he
    · rename_i e0 hps0
      split at h
      · cases h
      · rename_i hs0 hbh0
        simp only [Except.ok.injEq] at h
        subst h
        rcases List.mem_cons.mp he with rfl | he2
        · exact processHoursSpec_isClosed hps0
        · exact ih hbh0 e he2

/-- A spec that the loop body maps to an entry contributes that entry to the
built list. -/
theorem buildHours_mem : ∀ {ss : List Json} {hs : List HoursEntry} {s : Json}
    {e : HoursEntry}, buildHours ss = .ok hs → s ∈ ss →
    processHoursSpec s = .ok (some e) → e ∈ hs := by
  intro ss
  induction ss with
  | nil => intro hs s e _ hmem; cases hmem
  | cons s0 ss ih =>
    intro hs s e h hmem hps
    unfold buildHours at h
    split at h
    · cases h
    · rename_i hnone
      rcases List.mem_cons.mp hmem with rfl | hmem2
      · rw [hnone] at hps; cases hps
      · exact ih h hmem2 hps
    · rename_i e0 hps0
      split at h
      · cases h
      · rename_i hs0 hbh0
        simp only [Except.ok.injEq] at h
        subst h
        rcases List.mem_cons.mp hmem with rfl | hmem2
        · rw [hps0] at hps
          simp only [Except.ok.injEq, Option.some.injEq] at hps
          exact hps ▸ List.mem_cons_self e0 hs0
        · exact List.mem_cons_of_mem e0 (ih hbh0 hmem2 hps)

/-- Sorting the hours list permutes it. -/
theorem sortHours_perm (hs : List HoursEntry) : (sortHours hs).Perm hs :=
  List.perm_insertionSort _ hs

/-- Characterization of a successful `extractBase`: the record it returns,
in terms of its stages. -/
theorem extractBase_ok {url : String} {pg : Page} {fields : List (String × Json)}
    {r : StoreRecord} (h : extractBase url pg fields = .ok r) :
    ∃ addr specs hs,
      buildAddress fields = .ok addr ∧
      pyIter ((fields.lookup "openingHoursSpecification").getD (.arr [])) = .ok specs ∧
      buildHours specs = .ok hs ∧
      r = { name := (fields.lookup "name").getD .null, address := addr,
            phone := (fields.lookup "telephone").getD .null,
            opening_hours := sortHours hs, url := url, description := .null,
            services := pg.chips.map pyStrip, latitude := .null, longitude := .null } := by
  unfold extractBase at h
  split at h
  · cases h
  · rename_i addr haddr
    split at h
    · cases h
    · rename_i specs hspecs
      split at h
      · cases h
      · rename_i hs hhs
        simp only [Except.ok.injEq] at h
        exact ⟨addr, specs, hs, haddr, hspecs, hhs, h.symm⟩

/-- Characterization of a successful page extraction: the ld+json tag parsed
to a dict, `extractBase` succeeded, and the NUXT enrichment touches only
latitude, longitude and description. -/
theorem scrape_page_ok {url : String} {pg : Page} {rec : StoreRecord}
    (h : scrape_store_page url (.page pg) = .ok (some rec)) :
    ∃ fields r, pg.ldJsonTag = some (.parsed (.obj fields)) ∧
      extractBase url pg fields = .ok r ∧
      rec.url = r.url ∧ rec.name = r.name ∧ rec.address = r.address ∧
      rec.phone = r.phone ∧ rec.services = r.services ∧
      rec.opening_hours = r.opening_hours := by
  simp only [scrape_store_page] at h
  split at h
  · cases h
  · cases h
  · cases h
  · rename_i ld hld
    split at h
    · rename_i fields
      split at h
      · cases h
      · rename_i r hex
        split at h
        · cases h
        · simp only [Except.ok.injEq, Option.some.injEq] at h
          subst h
          exact ⟨fields, r, hld, hex, rfl, rfl, rfl, rfl, rfl, rfl⟩
        · rename_i g hg
          simp only [Except.ok.injEq, Option.some.injEq] at h
          subst h
          exact ⟨fields, r, hld, hex, rfl, rfl, rfl, rfl, rfl, rfl⟩
    · cases h

/-- A record produced by a task carries the URL the task was submitted
with. -/
theorem scrape_url_eq {url : String} {f : FetchResult} {rec : StoreRecord}
    (h : scrape_store_page url f = .ok (some rec)) : rec.url = url := by
  cases f with
  | transportError => simp [scrape_store_page] at h
  | page pg =>
    obtain ⟨fields, r, _, hex, hurl, _⟩ := scrape_page_ok h
    obtain ⟨addr, specs, hs, _, _, _, hr⟩ := extractBase_ok hex
    rw [hurl, hr]

/-- The URLs of the records an error-free run collects form a sublist of the
submitted task URLs. -/
theorem orchestrate_ok_urls : ∀ {tasks : List (String × FetchResult)} {n : Nat}
    {rs : List StoreRecord}, orchestrate tasks = .ok (n, rs) →
    (rs.map StoreRecord.url).Sublist (tasks.map Prod.fst) := by
  intro tasks
  induction tasks with
  | nil =>
    intro n rs h
    simp only [orchestrate, Except.ok.injEq, Prod.mk.injEq] at h
    rw [← h.2]
    simp
  | cons t ts ih =>
    intro n rs h
    unfold orchestrate at h
    split at h
    · cases h
    · split at h
      · cases h
      · rename_i p hp
        simp only [Except.ok.injEq, Prod.mk.injEq] at h
        rw [← h.2]
        exact (ih hp).cons t.1
    · rename_i r hr
      split at h
      · cases h
      · rename_i p hp
        simp only [Except.ok.injEq, Prod.mk.injEq] at h
        rw [← h.2]
        simp only [List.map_cons]
        rw [scrape_url_eq hr]
        exact (ih hp).cons₂ t.1

/-- A successful final sort returns a permutation of its input, sorted by
the computed keys. -/
theorem sortRecords_ok {rs out : List StoreRecord} (h : sortRecords rs = .ok out) :
    out.Perm rs ∧ List.Pairwise (fun a b => strLe (recKeyD a) (recKeyD b) = true) out := by
  unfold sortRecords at h
  split at h
  · cases h
  · simp only [Except.ok.injEq] at h
    subst h
    exact ⟨List.perm_insertionSort _ rs, List.sorted_insertionSort _ rs⟩

/-- Discovery output never contains a URL twice. -/
theorem get_store_urls_nodup (inp : Option ListingPage) : (get_store_urls inp).Nodup := by
  cases inp with
  | none => simp [get_store_urls]
  | some pg =>
    exact ((List.perm_insertionSort _ _).nodup_iff).mpr (List.nodup_dedup _)

/-- Discovery output is sorted in the code-point order. -/
theorem get_store_urls_sorted (inp : Option ListingPage) :
    List.Pairwise (fun a b => strLe a b = true) (get_store_urls inp) := by
  cases inp with
  | none => simp [get_store_urls]
  | some pg => exact List.sorted_insertionSort _ _

/-- Success test on a task result. -/
def isOkB {α : Type} (e : Except PyErr α) : Bool :=
  match e with
  | .ok _ => true
  | .error _ => false

/-- The value `future.result()` hands the loop for one task when the task
does not raise: its record, or none. -/
def taskResult (t : String × FetchResult) : Option StoreRecord :=
  match scrape_store_page t.1 t.2 with
  | .ok o => o
  | .error _ => none

/-- Key/value pairs of a well-formed hours spec for Monday 11:00-21:00. -/
def mondayFields : List (String × Json) :=
  [("dayOfWeek", .str "Monday"), ("opens", .str "11:00"), ("closes", .str "21:00")]

/-- The spec object itself. -/
def mondaySpec : Json := .obj mondayFields

/-- The normalized entry the extractor derives from `mondaySpec`. -/
def mondayEntry : HoursEntry :=
  { name := .str "Monday", description := "11AM - 9PM", isClosed := false }

/-- A well-formed ld+json document for a store named Alpha. -/
def goodFields : List (String × Json) :=
  [("name", .str "Alpha"),
   ("telephone", .str "123"),
   ("address", .obj [("streetAddress", .str " 1 St "), ("addressLocality", .str "Town")]),
   ("openingHoursSpecification", .arr [mondaySpec])]

/-- A page that extracts without incident. -/
def goodPage : Page :=
  { ldJsonTag := some (.parsed (.obj goodFields)),
    chips := ["Delivery "],
    nuxtTag := none }

/-- The record extracted from `goodPage` at URL u2. -/
def goodRec : StoreRecord :=
  { name := .str "Alpha", address := "1 St, Town", phone := .str "123",
    opening_hours := [mondayEntry], url := "u2", description := .null,
    services := ["Delivery"], latitude := .null, longitude := .null }

/-- A page whose embedded-state blob carries a non-empty services list (one
service object named B) on the restaurant entity, while the visible chips
read A. -/
def c1page : Page :=
  { ldJsonTag := some (.parsed (.obj [("name", .str "Store")])),
    chips := ["A"],
    nuxtTag := some (.parsed (.arr
      [.obj [("state", .int 1)],
       .obj [("restaurant", .obj [("restaurant", .int 2)])],
       .obj [("latitude", .int 3), ("longitude", .int 4), ("description", .int 5),
             ("services", .arr [.obj [("name", .str "B")]])],
       .float (-37.8 : Rat), .float (144.9 : Rat), .str "desc"])) }

/-- The record extracted from `c1page`. -/
def c1rec : StoreRecord :=
  { name := .str "Store", address := "", phone := .null, opening_hours := [],
    url := "u", description := .str "desc", services := ["A"],
    latitude := .float (-37.8 : Rat), longitude := .float (144.9 : Rat) }

/-- C1, counterexample.  `c1page` has an embedded-state blob whose
restaurant entity carries the non-empty services list [{name: B}], yet the
emitted record's services are the chip texts [A] and do not contain B: the
code takes services from the DOM chips (line 101) unconditionally, and the
embedded-state walk of lines 103-124 reads only latitude, longitude and
description. -/
theorem c1_services_ignore_nuxt_counterexample :
    scrape_store_page "u" (.page c1page) = .ok (some c1rec) ∧
    c1rec.services = ["A"] ∧ "B" ∉ c1rec.services :=
  ⟨rfl, rfl, by decide⟩

/-- C1, amended: the services of every successfully extracted record are
exactly the stripped texts of the page's visible chips; the embedded-state
strategy never contributes services. -/
theorem c1_services_always_from_chips (url : String) (pg : Page) (rec : StoreRecord)
    (h : scrape_store_page url (.page pg) = .ok (some rec)) :
    rec.services = pg.chips.map pyStrip := by
  obtain ⟨fields, r, hld, hex, hurl, hname, haddr, hphone, hserv, hhours⟩ := scrape_page_ok h
  obtain ⟨addr, specs, hs, hba, hit, hbh, hr⟩ := extractBase_ok hex
  rw [hserv, hr]

/-- Witness for C1's amended theorem at `c1page`. -/
theorem c1_services_always_from_chips_witness :
    scrape_store_page "u" (.page c1page) = .ok (some c1rec) ∧
    c1rec.services = c1page.chips.map pyStrip :=
  ⟨rfl, c1_services_always_from_chips "u" c1page c1rec rfl⟩

/-- A page whose ld+json script parses to a JSON array: line 66 then calls
`.get` on a list, raising `AttributeError`, which no handler in
`scrape_store_page` catches. -/
def arrayLdPage : Page :=
  { ldJsonTag := some (.parsed (.arr [])), chips := [], nuxtTag := none }

/-- Tasks of a run in which the first page raises and the second would
succeed. -/
def tasksBad : List (String × FetchResult) :=
  [("u1", .page arrayLdPage), ("u2", .page goodPage)]

/-- Tasks of a run with one contained transport failure and one success. -/
def tasksW : List (String × FetchResult) :=
  [("u1", .transportError), ("u2", .page goodPage)]

/-- C2, counterexample.  In the run `tasksBad`, the first task's page has an
ld+json array, so its task raises AttributeError (line 66); `future.result()`
re-raises it in the orchestrator loop, so the run aborts with the exception
instead of producing the record the second task would have yielded: an
exception inside one page's fetch-then-extract work is not always converted
to a null result, and it does affect the processing of the other URL. -/
theorem c2_uncaught_exception_counterexample :
    orchestrate tasksBad = .error .attributeError ∧
    scrape_store_page "u2" (.page goodPage) = .ok (some goodRec) :=
  ⟨rfl, rfl⟩

/-- C2, amended: failures of the anticipated classes are contained —
a transport error yields a null result, and whenever every task's work ends
without an uncaught exception, the orchestrator drains all tasks, counts
each of them as processed, and collects exactly the non-null records in
completion order; but an exception outside the handled classes (such as the
AttributeError of the counterexample) propagates into the orchestrator loop
at `future.result()`. -/
theorem c2_handled_failures_contained :
    (∀ url : String, scrape_store_page url .transportError = .ok none) ∧
    (∀ tasks : List (String × FetchResult),
      (∀ t ∈ tasks, isOkB (scrape_store_page t.1 t.2) = true) →
      orchestrate tasks = .ok (tasks.length, tasks.filterMap taskResult)) := by
  constructor
  · intro url; rfl
  · intro tasks
    induction tasks with
    | nil => intro _; rfl
    | cons t ts ih =>
      intro hall
      have ht := hall t (List.mem_cons_self t ts)
      have hts := ih (fun x hx => hall x (List.mem_cons_of_mem t hx))
      cases hsc : scrape_store_page t.1 t.2 with
      | error e => rw [hsc] at ht; simp [isOkB] at ht
      | ok o =>
        cases o with
        | none =>
          simp only [orchestrate, hsc, hts, taskResult, List.filterMap_cons,
            List.length_cons]
        | some r =>
          simp only [orchestrate, hsc, hts, taskResult, List.filterMap_cons,
            List.length_cons]

/-- Witness for C2's amended theorem at `tasksW`. -/
theorem c2_handled_failures_contained_witness :
    orchestrate tasksW = .ok (tasksW.length, tasksW.filterMap taskResult) :=
  c2_handled_failures_contained.2 tasksW (by decide)

/-- A page with no ld+json script tag at all. -/
def missingTagPage : Page :=
  { ldJsonTag := none, chips := ["x"], nuxtTag := none }

/-- A page whose ld+json script tag exists but holds undecodable text. -/
def invalidTagPage : Page :=
  { ldJsonTag := some .invalid, chips := [], nuxtTag := none }

/-- A page whose ld+json script tag exists but whose `.string` is None (an
empty script element, or one fragmented into several nodes). -/
def noStringPage : Page :=
  { ldJsonTag := some .noString, chips := [], nuxtTag := none }

/-- C3, counterexample.  A present ld+json tag whose extracted string is
None — the byte blob of an HTML page whose ld+json script element is empty —
makes line 60 call json.loads with None, raising TypeError; the handler of
line 61 catches only json.JSONDecodeError, so the content of this tag fails
to parse as JSON yet the extractor raises past its boundary instead of
returning null. -/
theorem c3_empty_tag_raises_counterexample :
    scrape_store_page "u" (.page noStringPage) = .error .typeError :=
  rfl

/-- C3, amended: when the ld+json tag is absent, or present with text that
raises a JSON decode error, the extractor returns null and raises nothing;
the uncovered case is a present tag whose extracted string is None, which
raises TypeError as in the counterexample. -/
theorem c3_missing_or_undecodable_returns_none (url : String) (pg : Page)
    (h : pg.ldJsonTag = none ∨ pg.ldJsonTag = some .invalid) :
    scrape_store_page url (.page pg) = .ok none := by
  rcases h with h | h <;> simp [scrape_store_page, h]

/-- Witness for C3's amended theorem at `missingTagPage`. -/
theorem c3_missing_or_undecodable_returns_none_witness :
    scrape_store_page "u" (.page missingTagPage) = .ok none :=
  c3_missing_or_undecodable_returns_none "u" missingTagPage (Or.inl rfl)

/-- C4, confirmed: whenever the ld+json document's hours list contains a
spec whose dayOfWeek is Monday, opens 11:00 and closes 21:00, and the page
extracts successfully, the emitted record's opening_hours contain the
normalized entry named Monday with description 11AM - 9PM and isClosed
false. -/
theorem c4_monday_entry_normalized (url : String) (pg : Page)
    (fields : List (String × Json)) (specs : List Json)
    (sf : List (String × Json)) (rec : StoreRecord)
    (hld : pg.ldJsonTag = some (.parsed (.obj fields)))
    (hspecs : (fields.lookup "openingHoursSpecification").getD (.arr []) = .arr specs)
    (hmem : Json.obj sf ∈ specs)
    (hday : sf.lookup "dayOfWeek" = some (.str "Monday"))
    (hopens : sf.lookup "opens" = some (.str "11:00"))
    (hcloses : sf.lookup "closes" = some (.str "21:00"))
    (h : scrape_store_page url (.page pg) = .ok (some rec)) :
    mondayEntry ∈ rec.opening_hours := by
  obtain ⟨fields', r, hld', hex, hurl, hname, haddr, hphone, hserv, hhours⟩ :=
    scrape_page_ok h
  rw [hld] at hld'
  simp only [Option.some.injEq, ScriptContent.parsed.injEq, Json.obj.injEq] at hld'
  subst hld'
  obtain ⟨addr, specs', hs, hba, hit, hbh, hr⟩ := extractBase_ok hex
  rw [hspecs] at hit
  simp only [pyIter, Except.ok.injEq] at hit
  subst hit
  have hps : processHoursSpec (.obj sf) = .ok (some mondayEntry) := by
    have h1 : parseHM "11:00" = some (11, 0) := rfl
    have h2 : parseHM "21:00" = some (21, 0) := rfl
    simp only [processHoursSpec, hday, hopens, hcloses, h1, h2, Option.getD_some]
    rfl
  have hm := buildHours_mem hbh hmem hps
  rw [hhours, hr]
  exact ((sortHours_perm hs).mem_iff).mpr hm

/-- Witness for C4 at `goodPage`. -/
theorem c4_monday_entry_normalized_witness : mondayEntry ∈ goodRec.opening_hours :=
  c4_monday_entry_normalized "u2" goodPage goodFields [mondaySpec] mondayFields
    goodRec rfl rfl (List.mem_singleton.mpr rfl) rfl rfl rfl rfl

/-- A page whose ld+json document is the empty dict and which has no chips
and no NUXT blob. -/
def emptyLdPage : Page :=
  { ldJsonTag := some (.parsed (.obj [])), chips := [], nuxtTag := none }

/-- The record extracted from `emptyLdPage` at URL u. -/
def emptyRec : StoreRecord :=
  { name := .null, address := "", phone := .null, opening_hours := [],
    url := "u", description := .null, services := [], latitude := .null,
    longitude := .null }

/-- C5, counterexample.  For a page whose structured-data block carries no
address components, the emitted record's address is the empty string, not
the null value: line 72 joins an empty list of parts into the empty string
and line 93 stores it unconditionally, so the serialized address field of
such a record is the JSON string value of the empty string. -/
theorem c5_absent_address_empty_string_counterexample :
    scrape_store_page "u" (.page emptyLdPage) = .ok (some emptyRec) ∧
    jsonField (recordToJson emptyRec) "address" = some (.str "") ∧
    Json.str "" ≠ Json.null :=
  ⟨rfl, rfl, fun h => Json.noConfusion h⟩

/-- When the NUXT walk yields nothing, the placeholders of line 97 survive
to the returned record: description, latitude and longitude stay null. -/
theorem scrape_page_nuxt_none {url : String} {pg : Page} {rec : StoreRecord}
    (h : scrape_store_page url (.page pg) = .ok (some rec))
    (hnx : nuxtExtract pg = .ok none) :
    rec.description = .null ∧ rec.latitude = .null ∧ rec.longitude = .null := by
  simp only [scrape_store_page] at h
  split at h
  · cases h
  · cases h
  · cases h
  · split at h
    · split at h
      · cases h
      · rename_i r hex
        split at h
        · cases h
        · simp only [Except.ok.injEq, Option.some.injEq] at h
          subst h
          obtain ⟨addr, specs, hs, hba, hit, hbh, hr⟩ := extractBase_ok hex
          rw [hr]
          exact ⟨rfl, rfl, rfl⟩
        · rename_i g hg
          rw [hnx] at hg
          cases hg
    · cases h

/-- C5, amended: in every emitted record, each absent scalar among name,
phone, description, latitude and longitude is the null value — name and
phone when their keys are absent from the structured-data dict, the other
three when the embedded-state walk yields nothing — and each absent array
is empty: opening_hours when the hours key is absent, services when the
page has no chips; but a record whose structured-data dict has no address
key carries the empty string as its address, not null. -/
theorem c5_absent_fields_representation (url : String) (pg : Page)
    (fields : List (String × Json)) (rec : StoreRecord)
    (hld : pg.ldJsonTag = some (.parsed (.obj fields)))
    (h : scrape_store_page url (.page pg) = .ok (some rec)) :
    (fields.lookup "name" = none → rec.name = .null) ∧
    (fields.lookup "telephone" = none → rec.phone = .null) ∧
    (fields.lookup "openingHoursSpecification" = none → rec.opening_hours = []) ∧
    (pg.chips = [] → rec.services = []) ∧
    (fields.lookup "address" = none → rec.address = "") ∧
    (nuxtExtract pg = .ok none →
      rec.description = .null ∧ rec.latitude = .null ∧ rec.longitude = .null) := by
  obtain ⟨fields', r, hld', hex, hurl, hname, haddr, hphone, hserv, hhours⟩ :=
    scrape_page_ok h
  rw [hld] at hld'
  simp only [Option.some.injEq, ScriptContent.parsed.injEq, Json.obj.injEq] at hld'
  subst hld'
  obtain ⟨addr, specs, hs, hba, hit, hbh, hr⟩ := extractBase_ok hex
  refine ⟨?_, ?_, ?_, ?_, ?_, fun hnx => scrape_page_nuxt_none h hnx⟩
  · intro hk
    rw [hname, hr]
    simp [hk]
  · intro hk
    rw [hphone, hr]
    simp [hk]
  · intro hk
    have h0 : pyIter ((none : Option Json).getD (.arr [])) = .ok ([] : List Json) := rfl
    rw [hk, h0] at hit
    obtain rfl : ([] : List Json) = specs := Except.ok.inj hit
    have h1 : buildHours [] = .ok ([] : List HoursEntry) := rfl
    rw [h1] at hbh
    obtain rfl : ([] : List HoursEntry) = hs := Except.ok.inj hbh
    rw [hhours, hr]
    rfl
  · intro hk
    rw [hserv, hr]
    simp [hk]
  · intro hk
    have h0 : buildAddress fields = .ok "" := by
      unfold buildAddress
      rw [hk]
      rfl
    rw [hba] at h0
    rw [haddr, hr]
    exact Except.ok.inj h0

/-- Witness for C5's amended theorem at `emptyLdPage`, exercising every
conjunct. -/
theorem c5_absent_fields_representation_witness :
    emptyRec.name = .null ∧ emptyRec.phone = .null ∧
    emptyRec.opening_hours = [] ∧ emptyRec.services = [] ∧
    emptyRec.address = "" ∧
    (emptyRec.description = .null ∧ emptyRec.latitude = .null ∧
      emptyRec.longitude = .null) :=
  ⟨(c5_absent_fields_representation "u" emptyLdPage [] emptyRec rfl rfl).1 rfl,
   (c5_absent_fields_representation "u" emptyLdPage [] emptyRec rfl rfl).2.1 rfl,
   (c5_absent_fields_representation "u" emptyLdPage [] emptyRec rfl rfl).2.2.1 rfl,
   (c5_absent_fields_representation "u" emptyLdPage [] emptyRec rfl rfl).2.2.2.1 rfl,
   (c5_absent_fields_representation "u" emptyLdPage [] emptyRec rfl rfl).2.2.2.2.1 rfl,
   (c5_absent_fields_representation "u" emptyLdPage [] emptyRec rfl rfl).2.2.2.2.2 rfl⟩

/-- The listing scenario: three anchors, two distinct ones matching the
detail-page filter substring, the third a duplicate of the first. -/
def listing3 : ListingPage :=
  ⟨["/restaurants/sydney", "/restaurants/brisbane", "/restaurants/sydney"]⟩

/-- C6, confirmed: discovery output is always duplicate-free and sorted in
the code-point order, and on the three-anchor scenario it returns exactly
the two unique resolved URLs in lexicographic order. -/
theorem c6_discovery_dedup_sorted :
    (∀ inp : Option ListingPage, (get_store_urls inp).Nodup ∧
      List.Pairwise (fun a b => strLe a b = true) (get_store_urls inp)) ∧
    get_store_urls (some listing3) =
      ["https://grilld.com.au/restaurants/brisbane",
       "https://grilld.com.au/restaurants/sydney"] :=
  ⟨fun inp => ⟨get_store_urls_nodup inp, get_store_urls_sorted inp⟩, rfl⟩

/-- A second well-formed page, named with a lowercase letter that sorts
after Alpha case-insensitively. -/
def bPage : Page :=
  { ldJsonTag := some (.parsed (.obj [("name", .str "b")])), chips := [],
    nuxtTag := none }

/-- The record extracted from `bPage` at URL u1. -/
def bRec : StoreRecord :=
  { name := .str "b", address := "", phone := .null, opening_hours := [],
    url := "u1", description := .null, services := [], latitude := .null,
    longitude := .null }

/-- Tasks whose records arrive against the final name order. -/
def tasksC7 : List (String × FetchResult) :=
  [("u1", .page bPage), ("u2", .page goodPage)]

/-- C7, confirmed: whatever the completion order of the tasks, a run that
reaches the write produces a list sorted by the key of line 157 — the
lowercased name, with a falsy (absent) name keyed as the empty string, so
null-named records come first — and the sorted list is a permutation of the
collected records. -/
theorem c7_output_sorted_by_name_key :
    (∀ (tasks : List (String × FetchResult)) (out : List StoreRecord),
      main_records tasks = .ok out →
      List.Pairwise (fun a b => strLe (recKeyD a) (recKeyD b) = true) out) ∧
    (∀ rs out : List StoreRecord, sortRecords rs = .ok out → out.Perm rs) ∧
    (∀ r : StoreRecord, r.name = Json.null → recKeyD r = "") := by
  refine ⟨?_, ?_, ?_⟩
  · intro tasks out h
    unfold main_records at h
    split at h
    · cases h
    · exact (sortRecords_ok h).2
  · intro rs out h
    exact (sortRecords_ok h).1
  · intro r h
    simp [recKeyD, recKey, h]

/-- Witness for C7 at `tasksC7`: the records complete in the order b,
Alpha, and the final list is re-sorted to Alpha, b. -/
theorem c7_output_sorted_by_name_key_witness :
    main_records tasksC7 = .ok [goodRec, bRec] ∧
    List.Pairwise (fun a b => strLe (recKeyD a) (recKeyD b) = true) [goodRec, bRec] :=
  ⟨rfl, c7_output_sorted_by_name_key.1 tasksC7 [goodRec, bRec] rfl⟩

/-- Once the one-shot flag is set, no later page writes. -/
theorem debugWritesAux_true_getD : ∀ (ps : List Bool) (i : Nat),
    (debugWritesAux true ps).getD i false = false
  | [], _ => rfl
  | p :: ps, 0 => by cases p <;> rfl
  | p :: ps, i + 1 => by
    cases p <;>
      simp only [debugWritesAux, if_true, if_false, List.getD_cons_succ] <;>
      exact debugWritesAux_true_getD ps i

/-- Once the one-shot flag is set, the write count of the rest is zero. -/
theorem debugWritesAux_true_count : ∀ ps : List Bool,
    (debugWritesAux true ps).count true = 0
  | [] => rfl
  | p :: ps => by
    cases p <;>
      simp [debugWritesAux, List.count_cons, debugWritesAux_true_count ps]

/-- One write marker per page. -/
theorem debugWritesAux_length : ∀ (flag : Bool) (ps : List Bool),
    (debugWritesAux flag ps).length = ps.length
  | _, [] => rfl
  | flag, p :: ps => by
    cases p <;> cases flag <;>
      simp [debugWritesAux, debugWritesAux_length _ ps]

/-- C8, confirmed against the spec model: per run there is one write marker
per page, the number of debug writes is one exactly when some page failed
(and zero otherwise), and any page that writes is a failing page preceded
only by non-failing pages — so of two failing pages, only the first
writes. -/
theorem c8_debug_write_once (pages : List Bool) :
    (debugWrites pages).length = pages.length ∧
    (debugWrites pages).count true = (if true ∈ pages then 1 else 0) ∧
    (∀ i, (debugWrites pages).getD i false = true →
      pages.getD i false = true ∧ ∀ j, j < i → pages.getD j false = false) := by
  induction pages with
  | nil =>
    refine ⟨rfl, rfl, ?_⟩
    intro i h
    cases h
  | cons p ps ih =>
    cases p
    · refine ⟨?_, ?_, ?_⟩
      · simpa [debugWrites, debugWritesAux] using ih.1
      · have := ih.2.1
        simp only [debugWrites, debugWritesAux, if_false] at this ⊢
        simpa [List.count_cons] using this
      · intro i h
        cases i with
        | zero => cases h
        | succ i =>
          simp only [debugWrites, debugWritesAux, if_false, List.getD_cons_succ] at h
          obtain ⟨h1, h2⟩ := ih.2.2 i h
          refine ⟨by simpa using h1, ?_⟩
          intro j hj
          cases j with
          | zero => rfl
          | succ j => exact h2 j (by omega)
    · refine ⟨?_, ?_, ?_⟩
      · simp [debugWrites, debugWritesAux, debugWritesAux_length]
      · simp [debugWrites, debugWritesAux, List.count_cons, debugWritesAux_true_count]
      · intro i h
        cases i with
        | zero => exact ⟨rfl, fun j hj => absurd hj (Nat.not_lt_zero j)⟩
        | succ i =>
          have hfix : debugWrites (true :: ps) = true :: debugWritesAux true ps := rfl
          rw [hfix, List.getD_cons_succ, debugWritesAux_true_getD] at h
          cases h

/-- Witness for C8 on a run with two failing pages: the first page writes,
the second does not. -/
theorem c8_debug_write_once_witness :
    debugWrites [true, true] = [true, false] ∧
    ([true, true].getD 0 false = true ∧
      ∀ j, j < 0 → [true, true].getD j false = false) :=
  ⟨rfl, (c8_debug_write_once [true, true]).2.2 0 rfl⟩

/-- C9, confirmed: every successfully extracted record's url equals the
input URL of its task; discovery output never repeats a URL; and a run over
pairwise-distinct URLs yields records with pairwise-distinct urls. -/
theorem c9_url_key_invariants :
    (∀ (url : String) (f : FetchResult) (rec : StoreRecord),
      scrape_store_page url f = .ok (some rec) → rec.url = url) ∧
    (∀ inp : Option ListingPage, (get_store_urls inp).Nodup) ∧
    (∀ (tasks : List (String × FetchResult)) (n : Nat) (rs : List StoreRecord),
      (tasks.map Prod.fst).Nodup → orchestrate tasks = .ok (n, rs) →
      (rs.map StoreRecord.url).Nodup) ∧
    (∀ (tasks : List (String × FetchResult)) (out : List StoreRecord),
      (tasks.map Prod.fst).Nodup → main_records tasks = .ok out →
      (out.map StoreRecord.url).Nodup) := by
  refine ⟨fun _ _ _ h => scrape_url_eq h, get_store_urls_nodup,
    fun _ _ _ hnd h => (orchestrate_ok_urls h).nodup hnd, ?_⟩
  intro tasks out hnd h
  unfold main_records at h
  split at h
  · cases h
  · rename_i n p hp
    have hrs : (p.map StoreRecord.url).Nodup := (orchestrate_ok_urls hp).nodup hnd
    exact (((sortRecords_ok h).1.map StoreRecord.url).nodup_iff).mpr hrs

/-- Witness for C9 at the run `tasksW`. -/
theorem c9_url_key_invariants_witness :
    goodRec.url = "u2" ∧ (([goodRec].map StoreRecord.url)).Nodup :=
  ⟨c9_url_key_invariants.1 "u2" (.page goodPage) goodRec rfl,
   c9_url_key_invariants.2.2.2 tasksW [goodRec] (by decide) rfl⟩

/-- C10, confirmed: every hours entry of every emitted record has isClosed
false — the loop only ever appends entries with isClosed False — and a spec
with a missing opens key, or an opens string that does not parse as HH:MM,
is skipped without contributing an entry. -/
theorem c10_hours_never_closed :
    (∀ (url : String) (f : FetchResult) (rec : StoreRecord),
      scrape_store_page url f = .ok (some rec) →
      ∀ e ∈ rec.opening_hours, e.isClosed = false) ∧
    (∀ sf : List (String × Json), sf.lookup "opens" = none →
      processHoursSpec (.obj sf) = .ok none) ∧
    (∀ (sf : List (String × Json)) (o : String),
      sf.lookup "opens" = some (.str o) → parseHM o = none →
      processHoursSpec (.obj sf) = .ok none) := by
  refine ⟨?_, ?_, ?_⟩
  · intro url f rec h e he
    cases f with
    | transportError => simp [scrape_store_page] at h
    | page pg =>
      obtain ⟨fields, r, hld, hex, hurl, hname, haddr, hphone, hserv, hhours⟩ :=
        scrape_page_ok h
      obtain ⟨addr, specs, hs, hba, hit, hbh, hr⟩ := extractBase_ok hex
      rw [hhours, hr] at he
      exact buildHours_isClosed hbh e (((sortHours_perm hs).mem_iff).mp he)
  · intro sf h
    simp [processHoursSpec, h]
  · intro sf o h1 h2
    simp [processHoursSpec, h1, h2]

/-- Witness for C10 at `goodPage` and two malformed specs. -/
theorem c10_hours_never_closed_witness :
    mondayEntry.isClosed = false ∧
    processHoursSpec (.obj []) = .ok none ∧
    processHoursSpec (.obj [("opens", .str "25:00")]) = .ok none :=
  ⟨c10_hours_never_closed.1 "u2" (.page goodPage) goodRec rfl mondayEntry
      (List.mem_singleton.mpr rfl),
   c10_hours_never_closed.2.1 [] rfl,
   c10_hours_never_closed.2.2 [("opens", .str "25:00")] "25:00" rfl rfl⟩
